import Mathlib

/-!
Verification of the radare2-mcp protocol engine (src/r2_mcp.c) against its
natural-language specification.  The C program is shallowly embedded:

* the Framer (`read_buffer_append` / `read_buffer_get_message`) works on a
  growable byte buffer, modelled here as a `List Char`;
* parsed `RJson` values and the JSON produced by the `pj_*` builders are both
  modelled by the inductive `Json`;
* the radare2 core (`r_core_*`) is the external backend: it is modelled by an
  oracle structure `RCoreApi` supplying the outputs of `r_core_cmd_str` and
  `r_core_file_open`, and every backend invocation is recorded in an explicit
  trace of `Call`s so that "the engine did not contact the backend" is the
  statement that the trace is empty;
* the mutable globals (`file_opened`, `current_file`, `r_core`,
  `server_state`) become explicit state records threaded through the handlers.
-/

set_option maxRecDepth 8192

namespace R2Mcp

/-! ## Framer: ReadBuffer (src/r2_mcp.c, read_buffer_append / read_buffer_get_message)

The C buffer holds raw bytes; `read_buffer_append` concatenates (capacity
doubling is invisible at this level), and `read_buffer_get_message` uses
`memchr` to find the first newline, copies out the bytes before it and shifts
the remainder to the front of the buffer. -/

/-- `read_buffer_append(buf, data, len)`: the buffer contents after appending. -/
def read_buffer_append (buf : List Char) (data : List Char) : List Char :=
  buf ++ data

/-- `read_buffer_get_message(buf)`: if a newline is present, return the bytes
before the first newline together with the new buffer contents (everything
after that newline); otherwise no message. -/
def read_buffer_get_message (buf : List Char) : Option (List Char × List Char) :=
  if buf.contains '\n' then
    some (buf.takeWhile (fun c => c != '\n'), (buf.dropWhile (fun c => c != '\n')).tail)
  else
    none

/-- A buffer containing a newline splits as the newline-free prefix, the first
newline, and the rest. -/
theorem newline_split (buf : List Char) (hc : buf.contains '\n' = true) :
    buf = buf.takeWhile (fun c => c != '\n') ++
        '\n' :: (buf.dropWhile (fun c => c != '\n')).tail ∧
      (buf.takeWhile (fun c => c != '\n')).contains '\n' = false := by
  induction buf with
  | nil => simp at hc
  | cons c cs ih =>
    by_cases h : c = '\n'
    · subst h
      simp
    · have hb : (c != '\n') = true := by simp [h]
      have hc' : cs.contains '\n' = true := by
        simp only [List.contains_cons] at hc
        rcases Bool.or_eq_true_iff.mp hc with h1 | h1
        · exact absurd (beq_iff_eq.mp h1).symm h
        · exact h1
      obtain ⟨h1, h2⟩ := ih hc'
      constructor
      · simp only [List.takeWhile_cons, hb, List.dropWhile_cons, if_true, List.cons_append]
        exact congrArg (c :: ·) h1
      · have hnc : ('\n' == c) = false := by
          simp only [beq_eq_false_iff_ne, ne_eq]
          exact fun hh => h hh.symm
        simp only [List.takeWhile_cons, hb, if_true, List.contains_cons, hnc,
          Bool.false_or]
        exact h2

/-- Decomposition of a successful extraction: the buffer was the message, the
newline, then the new buffer contents, and the message itself is newline-free. -/
theorem get_message_decomp {buf msg rest : List Char}
    (h : read_buffer_get_message buf = some (msg, rest)) :
    buf = msg ++ '\n' :: rest ∧ msg.contains '\n' = false := by
  unfold read_buffer_get_message at h
  cases hc : buf.contains '\n' with
  | true =>
    rw [hc] at h
    rw [if_pos rfl] at h
    simp only [Option.some.injEq, Prod.mk.injEq] at h
    obtain ⟨hm, hr⟩ := h
    subst hm; subst hr
    exact newline_split buf hc
  | false =>
    rw [hc] at h
    simp at h

/-- A successful extraction strictly shrinks the buffer (used for termination
of the extract-until-empty loop of `direct_mode_loop`). -/
theorem get_message_shrinks {buf msg rest : List Char}
    (h : read_buffer_get_message buf = some (msg, rest)) :
    rest.length < buf.length := by
  have hd := (get_message_decomp h).1
  rw [hd]
  simp
  omega

/-- The `while ((msg = read_buffer_get_message(buffer)) != NULL)` loop of
`direct_mode_loop`: extract messages until none is left, returning the
extracted messages in order together with the final buffer contents. -/
def drain (buf : List Char) : List (List Char) × List Char :=
  match h : read_buffer_get_message buf with
  | none => ([], buf)
  | some (msg, rest) =>
    let r := drain rest
    (msg :: r.1, r.2)
termination_by buf.length
decreasing_by exact get_message_shrinks h

/-- Feeding a sequence of read chunks, draining all complete messages after
each append, exactly as the read loop of `direct_mode_loop` does. -/
def feed (buf : List Char) (chunks : List (List Char)) : List (List Char) × List Char :=
  match chunks with
  | [] => ([], buf)
  | c :: cs =>
    let r1 := drain (read_buffer_append buf c)
    let r2 := feed r1.2 cs
    (r1.1 ++ r2.1, r2.2)

/-- Unfolding `drain` when no newline is buffered. -/
theorem drain_eq_none {buf : List Char}
    (h : read_buffer_get_message buf = none) : drain buf = ([], buf) := by
  rw [drain]
  split
  · rfl
  · rename_i msg rest h'
    rw [h] at h'
    cases h'

/-- Unfolding `drain` when a message is extracted. -/
theorem drain_eq_some {buf msg rest : List Char}
    (h : read_buffer_get_message buf = some (msg, rest)) :
    drain buf = (msg :: (drain rest).1, (drain rest).2) := by
  rw [drain]
  split
  · rename_i h'
    rw [h] at h'
    cases h'
  · rename_i msg' rest' h'
    rw [h] at h'
    cases h'
    rfl

theorem drain_of_no_newline {buf : List Char} (h : buf.contains '\n' = false) :
    drain buf = ([], buf) := by
  apply drain_eq_none
  unfold read_buffer_get_message
  rw [h]
  simp

/-- The leftover after draining contains no newline. -/
theorem drain_no_newline (buf : List Char) : (drain buf).2.contains '\n' = false := by
  have H : ∀ n (buf : List Char), buf.length = n →
      (drain buf).2.contains '\n' = false := by
    intro n
    induction n using Nat.strong_induction_on with
    | _ n ih =>
      intro buf hn
      cases hm : read_buffer_get_message buf with
      | none =>
        rw [drain_eq_none hm]
        unfold read_buffer_get_message at hm
        cases hc : buf.contains '\n' with
        | true => rw [hc, if_pos rfl] at hm; cases hm
        | false => rfl
      | some mr =>
        obtain ⟨msg, rest⟩ := mr
        rw [drain_eq_some hm]
        have hlt : rest.length < n := hn ▸ get_message_shrinks hm
        exact ih rest.length hlt rest rfl
  exact H buf.length buf rfl

theorem contains_newline_append (msg rest : List Char) :
    (msg ++ '\n' :: rest).contains '\n' = true := by
  induction msg with
  | nil => simp [List.contains_cons]
  | cons c cs ih => simp [List.contains_cons, ih]

theorem takeWhile_newline_append (msg rest : List Char)
    (h : msg.contains '\n' = false) :
    (msg ++ '\n' :: rest).takeWhile (fun c => c != '\n') = msg := by
  induction msg with
  | nil => simp
  | cons c cs ih =>
    simp only [List.contains_cons, Bool.or_eq_false_iff, beq_eq_false_iff_ne, ne_eq] at h
    obtain ⟨h1, h2⟩ := h
    have hb : (c != '\n') = true := bne_iff_ne.mpr (fun hh => h1 hh.symm)
    simp only [List.cons_append, List.takeWhile_cons, hb, if_true]
    rw [ih h2]

theorem dropWhile_newline_append (msg rest : List Char)
    (h : msg.contains '\n' = false) :
    (msg ++ '\n' :: rest).dropWhile (fun c => c != '\n') = '\n' :: rest := by
  induction msg with
  | nil => simp
  | cons c cs ih =>
    simp only [List.contains_cons, Bool.or_eq_false_iff, beq_eq_false_iff_ne, ne_eq] at h
    obtain ⟨h1, h2⟩ := h
    have hb : (c != '\n') = true := bne_iff_ne.mpr (fun hh => h1 hh.symm)
    simp only [List.cons_append, List.dropWhile_cons, hb, if_true]
    exact ih h2

/-- Extraction from a buffer laid out as newline-free message, newline, rest. -/
theorem get_message_append (msg rest : List Char) (h : msg.contains '\n' = false) :
    read_buffer_get_message (msg ++ '\n' :: rest) = some (msg, rest) := by
  unfold read_buffer_get_message
  rw [contains_newline_append, if_pos rfl,
    takeWhile_newline_append msg rest h, dropWhile_newline_append msg rest h]
  rfl

/-- Draining `buf ++ extra` first yields everything drained from `buf`, then
continues on the leftover with `extra` appended. -/
theorem drain_append (buf extra : List Char) :
    drain (buf ++ extra) =
      ((drain buf).1 ++ (drain ((drain buf).2 ++ extra)).1,
       (drain ((drain buf).2 ++ extra)).2) := by
  have H : ∀ n (buf : List Char), buf.length = n →
      drain (buf ++ extra) =
        ((drain buf).1 ++ (drain ((drain buf).2 ++ extra)).1,
         (drain ((drain buf).2 ++ extra)).2) := by
    intro n
    induction n using Nat.strong_induction_on with
    | _ n ih =>
      intro buf hn
      cases hm : read_buffer_get_message buf with
      | none =>
        rw [drain_eq_none hm]
        simp
      | some mr =>
        obtain ⟨msg, rest⟩ := mr
        obtain ⟨hdec, hfree⟩ := get_message_decomp hm
        have hlt : rest.length < n := hn ▸ get_message_shrinks hm
        have hm2 : read_buffer_get_message (buf ++ extra) = some (msg, rest ++ extra) := by
          rw [hdec, List.append_assoc, List.cons_append]
          exact get_message_append msg (rest ++ extra) hfree
        rw [drain_eq_some hm2, drain_eq_some hm]
        simp [ih rest.length hlt rest rfl]
  exact H buf.length buf rfl

/-- Feeding chunks one at a time, with a newline-free starting buffer, yields
exactly what draining the concatenation of the chunks yields. -/
theorem feed_eq_drain_join (chunks : List (List Char)) :
    ∀ buf : List Char, buf.contains '\n' = false →
      feed buf chunks = drain (buf ++ chunks.flatten) := by
  induction chunks with
  | nil =>
    intro buf h
    rw [feed]
    simp [drain_of_no_newline h]
  | cons c cs ih =>
    intro buf h
    rw [feed]
    have h1 : (drain (read_buffer_append buf c)).2.contains '\n' = false :=
      drain_no_newline (read_buffer_append buf c)
    have h2 := ih (drain (read_buffer_append buf c)).2 h1
    rw [h2]
    have h3 := drain_append (buf ++ c) (cs.flatten)
    simp only [read_buffer_append] at *
    rw [List.flatten_cons, ← List.append_assoc, h3]


/-! ## JSON values

`Json` models both the parsed `RJson` trees handed to the handlers and the
JSON emitted through the `PJ` builder functions (`pj_o`, `pj_ks`, `pj_ki`,
`pj_raw`, ...).  The constructors mirror the `RJson` node types
(`R_JSON_NULL`, `R_JSON_BOOLEAN`, `R_JSON_INTEGER`, `R_JSON_DOUBLE`,
`R_JSON_STRING`, `R_JSON_ARRAY`, `R_JSON_OBJECT`).  An integer node carries
the mathematical value of the literal; the engine reads it through
`num.u_value` (an unsigned 64-bit field), modelled by `toUInt64v`.  The
payload of a double node is never read by the engine, so it is not modelled.
Object fields are ordered, as in the C, and `r_json_get` returns the first
field with the requested key. -/

inductive Json where
  | null
  | bool (b : Bool)
  | int (n : Int)
  | double
  | str (s : String)
  | arr (elems : List Json)
  | obj (fields : List (String × Json))

/-- The `num.u_value` (ut64) view of a JSON integer: two's-complement bits. -/
def toUInt64v (n : Int) : Nat := (n % ((2 : Int) ^ 64)).toNat

/-- `(long long)` of a ut64 value, as used when serializing a numeric id. -/
def asInt64 (u : Nat) : Int :=
  if u % 2 ^ 64 < 2 ^ 63 then ((u % 2 ^ 64 : Nat) : Int)
  else ((u % 2 ^ 64 : Nat) : Int) - 2 ^ 64

/-- `(int)` of a ut64 value, as used for `numInstructions`. -/
def asInt32 (u : Nat) : Int :=
  if u % 2 ^ 32 < 2 ^ 31 then ((u % 2 ^ 32 : Nat) : Int)
  else ((u % 2 ^ 32 : Nat) : Int) - 2 ^ 32

/-- `r_json_get(json, key)`: first field of an object node with that key;
NULL for a missing json, a non-object node, or an absent key. -/
def r_json_get : Option Json → String → Option Json
  | some (Json.obj fields), key => fields.lookup key
  | _, _ => none

/-- `r_json_get_str` (src/r2_mcp.c:15): the string value of a field, NULL
unless the field exists and has type `R_JSON_STRING`. -/
def r_json_get_str (j : Option Json) (key : String) : Option String :=
  match r_json_get j key with
  | some (Json.str s) => some s
  | _ => none

/-- C `atoi`: optional whitespace, optional sign, then a digit prefix. -/
def atoi (s : String) : Int :=
  let cs := s.toList.dropWhile (fun c =>
    c = ' ' ∨ c = '\t' ∨ c = '\n' ∨ c = '\x0b' ∨ c = '\x0c' ∨ c = '\r')
  let digits (l : List Char) : Int :=
    (l.takeWhile (fun c => c.isDigit)).foldl
      (fun acc c => acc * 10 + ((c.toNat - '0'.toNat : Nat) : Int)) 0
  match cs with
  | '-' :: rest => - digits rest
  | '+' :: rest => digits rest
  | _ => digits cs

/-! ## Response builders (create_error_response and friends) -/

/-- `create_error_response(code, message, id, uri)` (src/r2_mcp.c:295):
`jsonrpc`, optional `id`, and an `error` object; the id field is present only
when a non-NULL id is supplied. -/
def create_error_response (code : Int) (message : String)
    (id : Option String) (uri : Option String) : Json :=
  Json.obj ([("jsonrpc", Json.str "2.0")] ++
    (match id with
     | some i => [("id", Json.str i)]
     | none => []) ++
    [("error", Json.obj ([("code", Json.int code), ("message", Json.str message)] ++
      (match uri with
       | some u => [("data", Json.obj [("uri", Json.str u)])]
       | none => [])))])

/-- `create_success_response(result, id)` (src/r2_mcp.c:316): `jsonrpc`,
optional `id`, and the raw result (or JSON null when the handler produced
none). -/
def create_success_response (result : Option Json) (id : Option String) : Json :=
  Json.obj ([("jsonrpc", Json.str "2.0")] ++
    (match id with
     | some i => [("id", Json.str i)]
     | none => []) ++
    [("result", match result with
                | some r => r
                | none => Json.null)])

/-- `create_tool_error_response(error_message)` (src/r2_mcp.c:332). -/
def create_tool_error_response (error_message : String) : Json :=
  Json.obj [("content", Json.arr [Json.obj [("type", Json.str "text"),
                                            ("text", Json.str error_message)]]),
            ("isError", Json.bool true)]

/-- `create_tool_text_response(text)` (src/r2_mcp.c:348). -/
def create_tool_text_response (text : String) : Json :=
  Json.obj [("content", Json.arr [Json.obj [("type", Json.str "text"),
                                            ("text", Json.str text)]])]

/-! ## Backend oracle and engine state

The radare2 core is the external analysis backend.  `RCoreApi` supplies the
data the engine reads back from it; `Call` records each invocation the engine
makes, in order.  `R2State` collects the file-tracking globals (`r_core`
non-NULL, `file_opened`, `current_file`), `Session` the mutable part of
`server_state` (its `info`, `capabilities` and `instructions` fields are
compile-time constants in the C and are modelled as constants below). -/

structure RCoreApi where
  /-- whether `r_core_new()` succeeds -/
  init_ok : Bool
  /-- output of `r_core_cmd_str(core, cmd)` -/
  cmd_str : String → String
  /-- whether `r_core_file_open(core, path, R_PERM_R, 0)` returns a descriptor -/
  file_open_ok : String → Bool

inductive Call where
  | cmd0 (cmd : String)
  | cmd_str (cmd : String)
  | file_open (path : String)
  | bin_load (path : String)

structure R2State where
  r_core : Bool
  file_opened : Bool
  current_file : String

structure Session where
  initialized : Bool
  client_capabilities : Option Json
  client_info : Option Json

structure FullState where
  sess : Session
  r2 : R2State

/-- State at entry of `direct_mode_loop`: `main` has run `init_r2()`, no file
is open, and `server_state` still has its static initializer values. -/
def initial_state : FullState :=
  { sess := { initialized := false, client_capabilities := none, client_info := none },
    r2 := { r_core := true, file_opened := false, current_file := "" } }

/-! ## Backend wrappers (r2_open_file, r2_cmd, r2_analyze)

Each wrapper returns its C return value, the updated file-tracking state
where it mutates it, and the ordered list of radare2 invocations it made. -/

/-- `r2_open_file(filepath)` (src/r2_mcp.c:168).  If no core exists it runs
`init_r2()` (modelled by `api.init_ok`; the `r_config_set_i` call inside
`init_r2` touches no modelled state).  If a file is already open it first runs
`o-*` and clears `file_opened`/`current_file`.  It then sets two bin options,
runs `o <filepath>` (the command built by `snprintf` into a 1024-byte buffer,
hence the truncation), treats non-empty output as success, otherwise falls
back to `r_core_file_open` + `r_core_bin_load`, and on success runs `ob` and
records the file (stored through `strncpy` into a 1024-byte buffer). -/
def r2_open_file (api : RCoreApi) (st : R2State) (filepath : String) :
    Bool × R2State × List Call :=
  if !st.r_core && !api.init_ok then
    (false, st, [])
  else
    -- after this point a core exists (init_r2 succeeded if it was needed)
    let st1 : R2State := { st with r_core := true }
    let st2 : R2State :=
      if st1.file_opened then { st1 with file_opened := false, current_file := "" } else st1
    let tr1 : List Call := if st1.file_opened then [Call.cmd0 "o-*"] else []
    let tr2 : List Call :=
      tr1 ++ [Call.cmd0 "e bin.relocs.apply=true", Call.cmd0 "e bin.cache=true"]
    let cmd := ("o " ++ filepath).take 1023
    let result := api.cmd_str cmd
    if result.length > 0 then
      (true, { st2 with file_opened := true, current_file := filepath.take 1023 },
       tr2 ++ [Call.cmd_str cmd, Call.cmd0 "ob"])
    else if api.file_open_ok filepath then
      (true, { st2 with file_opened := true, current_file := filepath.take 1023 },
       tr2 ++ [Call.cmd_str cmd, Call.file_open filepath, Call.bin_load filepath, Call.cmd0 "ob"])
    else
      (false, st2, tr2 ++ [Call.cmd_str cmd, Call.file_open filepath])

/-- `r2_cmd(cmd)` (src/r2_mcp.c:217). -/
def r2_cmd (api : RCoreApi) (st : R2State) (cmd : String) : String × List Call :=
  if !st.r_core || !st.file_opened then
    ("Error: No file is open", [])
  else
    (api.cmd_str cmd, [Call.cmd_str cmd])

/-- `r2_analyze(level)` (src/r2_mcp.c:224); the level is `snprintf`-ed into a
32-byte command buffer. -/
def r2_analyze (st : R2State) (level : String) : Bool × List Call :=
  if !st.r_core || !st.file_opened then
    (false, [])
  else
    (true, [Call.cmd0 (level.take 31)])

/-! ## Tool Registry (handle_list_tools, src/r2_mcp.c:435) -/

/-- The `inputSchema` of `openFile` as written in the catalog literal. -/
def openFile_schema : Json :=
  Json.obj [("type", Json.str "object"),
            ("properties", Json.obj [("filePath",
              Json.obj [("type", Json.str "string"),
                        ("description", Json.str "Path to the file to open")])]),
            ("required", Json.arr [Json.str "filePath"])]

def closeFile_schema : Json :=
  Json.obj [("type", Json.str "object"), ("properties", Json.obj [])]

def runCommand_schema : Json :=
  Json.obj [("type", Json.str "object"),
            ("properties", Json.obj [("command",
              Json.obj [("type", Json.str "string"),
                        ("description", Json.str "Command to execute")])]),
            ("required", Json.arr [Json.str "command"])]

def analyze_schema : Json :=
  Json.obj [("type", Json.str "object"),
            ("properties", Json.obj [("level",
              Json.obj [("type", Json.str "string"),
                        ("description", Json.str "Analysis level (a, aa, aaa, aaaa)")])]),
            ("required", Json.arr [])]

def disassemble_schema : Json :=
  Json.obj [("type", Json.str "object"),
            ("properties", Json.obj [
              ("address", Json.obj [("type", Json.str "string"),
                ("description", Json.str "Address to start disassembly")]),
              ("numInstructions", Json.obj [("type", Json.str "integer"),
                ("description", Json.str "Number of instructions to disassemble")])]),
            ("required", Json.arr [Json.str "address"])]

/-- The fixed `tools[][3]` catalog (src/r2_mcp.c:461), in declaration order. -/
def tools_catalog : List (String × String × Json) :=
  [("openFile", "Open a file for analysis", openFile_schema),
   ("closeFile", "Close the currently open file", closeFile_schema),
   ("runCommand", "Run a radare2 command and get the output", runCommand_schema),
   ("analyze", "Run analysis on the current file", analyze_schema),
   ("disassemble", "Disassemble instructions at a given address", disassemble_schema)]

/-- One catalog entry as framed into the `tools` array. -/
def tool_descriptor_json (t : String × String × Json) : Json :=
  Json.obj [("name", Json.str t.1), ("description", Json.str t.2.1),
            ("inputSchema", t.2.2)]

/-- The page built for a given `start_index` (the body of `handle_list_tools`
after cursor parsing): `end_index = min(start_index + page_size, total)`, the
slice `[start_index, end_index)` in catalog order, and a `nextCursor` field
exactly when `end_index < total`. -/
def list_tools_page (start_index : Int) : Json :=
  let page_size : Int := 10
  let total : Int := (tools_catalog.length : Int)
  let end_index : Int :=
    if start_index + page_size > total then total else start_index + page_size
  let page := (tools_catalog.drop start_index.toNat).take (end_index - start_index).toNat
  Json.obj ([("tools", Json.arr (page.map tool_descriptor_json))] ++
    (if end_index < total then [("nextCursor", Json.str (toString end_index))] else []))

/-- `handle_list_tools(params)` (src/r2_mcp.c:435): `atoi` the cursor if one
is given, clamp negative values to 0, and build the page. -/
def handle_list_tools (params : Option Json) : Json :=
  match r_json_get_str params "cursor" with
  | some cursor => list_tools_page (if atoi cursor < 0 then 0 else atoi cursor)
  | none => list_tools_page 0

/-! ## Tool invocation (handle_call_tool, src/r2_mcp.c:523) -/

/-- `handle_call_tool(params)`: returns the raw JSON fragment handed back to
`handle_mcp_request` (note that the error branches return a complete JSON-RPC
error envelope, built with a NULL id, as this fragment), the updated
file-tracking state, and the backend calls made. -/
def handle_call_tool (api : RCoreApi) (st : R2State) (params : Option Json) :
    Json × R2State × List Call :=
  match r_json_get_str params "name" with
  | none => (create_error_response (-32602) "Missing required parameter: name" none none,
             st, [])
  | some tool_name =>
    -- tool_args = r_json_get(params, "arguments"), inlined at each use
    if tool_name = "openFile" then
      match r_json_get_str (r_json_get params "arguments") "filePath" with
      | none => (create_error_response (-32602) "Missing required parameter: filePath" none none,
                 st, [])
      | some filepath =>
        let r := r2_open_file api st filepath
        (create_tool_text_response
          (if r.1 then "File opened successfully." else "Failed to open file."),
         r.2.1, r.2.2)
    else if tool_name = "closeFile" then
      if st.file_opened = false then
        (create_tool_text_response "No file was open.", st, [])
      else if st.r_core then
        (create_tool_text_response "File closed successfully.",
         { st with file_opened := false, current_file := "" }, [Call.cmd0 "o-*"])
      else
        (create_tool_text_response "File closed successfully.", st, [])
    else if st.file_opened = false ∧
        (tool_name = "runCommand" ∨ tool_name = "analyze" ∨ tool_name = "disassemble") then
      (create_tool_error_response "No file is currently open. Please open a file first.",
       st, [])
    else if tool_name = "runCommand" then
      match r_json_get_str (r_json_get params "arguments") "command" with
      | none => (create_error_response (-32602) "Missing required parameter: command" none none,
                 st, [])
      | some command =>
        let r := r2_cmd api st command
        (create_tool_text_response r.1, st, r.2)
    else if tool_name = "analyze" then
      let level := (r_json_get_str (r_json_get params "arguments") "level").getD "aaa"
      let ra := r2_analyze st level
      let rc := r2_cmd api st "afl"
      -- format_string writes through a 4096-byte vsnprintf buffer
      let text := ("Analysis completed with level " ++ level ++ ".\n\n" ++ rc.1).take 4095
      (create_tool_text_response text, st, ra.2 ++ rc.2)
    else if tool_name = "disassemble" then
      match r_json_get_str (r_json_get params "arguments") "address" with
      | none => (create_error_response (-32602) "Missing required parameter: address" none none,
                 st, [])
      | some address =>
        let num_instructions : Int :=
          match r_json_get (r_json_get params "arguments") "numInstructions" with
          | some (Json.int n) => asInt32 (toUInt64v n)
          | _ => 10
        let cmd := ("pd " ++ toString num_instructions ++ " @ " ++ address).take 127
        let r := r2_cmd api st cmd
        (create_tool_text_response r.1, st, r.2)
    else
      (create_error_response (-32602) (("Unknown tool: " ++ tool_name).take 4095) none none,
       st, [])

/-! ## Capability negotiation and dispatch (src/r2_mcp.c:242-421) -/

/-- `check_client_capability(capability)` (src/r2_mcp.c:242). -/
def check_client_capability (sess : Session) (capability : String) : Bool :=
  match sess.client_capabilities with
  | none => false
  | some caps => (r_json_get (some caps) capability).isSome

/-- `check_server_capability(capability)` (src/r2_mcp.c:248); the
`server_state.capabilities` struct is the static initializer
`{ .logging = true, .tools = true }` and is never written. -/
def check_server_capability (capability : String) : Bool :=
  if capability = "logging" then true
  else if capability = "tools" then true
  else false

/-- `assert_capability_for_method` (src/r2_mcp.c:254), returning the error
message when the check fails. -/
def assert_capability_for_method (sess : Session) (method : String) : Option String :=
  if method = "sampling/createMessage" then
    if !check_client_capability sess "sampling" then some "Client does not support sampling"
    else none
  else if method = "roots/list" then
    if !check_client_capability sess "roots" then some "Client does not support listing roots"
    else none
  else none

/-- `!strncmp(s, p, strlen(p))`: the bytes of `p` lead the bytes of `s`. -/
def starts_with (p s : String) : Bool :=
  p.toList.isPrefixOf s.toList

/-- `assert_request_handler_capability` (src/r2_mcp.c:269). -/
def assert_request_handler_capability (method : String) : Option String :=
  if method = "sampling/createMessage" then
    if !check_server_capability "sampling" then some "Server does not support sampling"
    else none
  else if method = "logging/setLevel" then
    if !check_server_capability "logging" then some "Server does not support logging"
    else none
  else if starts_with "prompts/" method then
    if !check_server_capability "prompts" then some "Server does not support prompts"
    else none
  else if starts_with "tools/" method then
    if !check_server_capability "tools" then some "Server does not support tools"
    else none
  else none

/-- The short-circuit `!assert_capability_for_method(..) ||
!assert_request_handler_capability(..)` check of `handle_mcp_request`. -/
def method_capability_error (sess : Session) (method : String) : Option String :=
  match assert_capability_for_method sess method with
  | some e => some e
  | none => assert_request_handler_capability method

/-- `get_capabilities()` (src/r2_mcp.c:423): only `tools` is advertised. -/
def get_capabilities : Json :=
  Json.obj [("tools", Json.obj [])]

/-- The result object built by `handle_initialize` (src/r2_mcp.c:397).  The
`serverInfo`, capability and instruction strings are the static
`server_state` initializer values; `instructions` is always non-NULL, so its
conditional inclusion always happens. -/
def initialize_result : Json :=
  Json.obj [("protocolVersion", Json.str "2024-11-05"),
            ("serverInfo", Json.obj [("name", Json.str "Radare2 MCP Connector"),
                                     ("version", Json.str "1.0.0")]),
            ("capabilities", get_capabilities),
            ("instructions", Json.str "Use this server to analyze binaries with radare2")]

/-- `handle_initialize(params)`: replaces the stored client capabilities and
info and sets `initialized`; returns the result fragment. -/
def handle_initialize_request (sess : Session) (params : Option Json) : Json × Session :=
  (initialize_result,
   { initialized := true,
     client_capabilities := r_json_get params "capabilities",
     client_info := r_json_get params "clientInfo" })

/-- `handle_mcp_request(method, params, id)` (src/r2_mcp.c:362): capability
gate, then method routing.  Branches that `return create_error_response(...)`
in the C bypass the success wrapper; all other branches wrap the handler
fragment with `create_success_response`. -/
def handle_mcp_request (api : RCoreApi) (st : FullState) (method : String)
    (params : Option Json) (id : Option String) : Json × FullState × List Call :=
  match method_capability_error st.sess method with
  | some err => (create_error_response (-32601) err id none, st, [])
  | none =>
    if method = "initialize" then
      (create_success_response (some (handle_initialize_request st.sess params).1) id,
       { st with sess := (handle_initialize_request st.sess params).2 }, [])
    else if method = "ping" then
      (create_success_response (some (Json.obj [])) id, st, [])
    else if method = "resources/templates/list" then
      (create_error_response (-32601) "Method not implemented: templates are not supported" id none,
       st, [])
    else if method = "resources/list" then
      (create_error_response (-32601) "Method not implemented: resources are not supported" id none,
       st, [])
    else if method = "resources/read" ∨ method = "resource/read" then
      (create_error_response (-32601) "Method not implemented: resources are not supported" id none,
       st, [])
    else if method = "resources/subscribe" ∨ method = "resource/subscribe" then
      (create_error_response (-32601) "Method not implemented: subscriptions are not supported" id none,
       st, [])
    else if method = "tools/list" ∨ method = "tool/list" then
      (create_success_response (some (handle_list_tools params)) id, st, [])
    else if method = "tools/call" ∨ method = "tool/call" then
      (create_success_response (some (handle_call_tool api st.r2 params).1) id,
       { st with r2 := (handle_call_tool api st.r2 params).2.1 },
       (handle_call_tool api st.r2 params).2.2)
    else
      (create_error_response (-32601) "Unknown method" id none, st, [])

/-- The id string recovered from the `id` field by `process_mcp_message`:
a string id verbatim, an integer id through `snprintf("%lld",
(long long)u_value)`, anything else treated as if no usable id. -/
def parse_id (idj : Json) : Option String :=
  match idj with
  | Json.str s => some s
  | Json.int n => some (toString (asInt64 (toUInt64v n)))
  | _ => none

/-- `process_mcp_message(msg)` (src/r2_mcp.c:622) on the already-parsed
message (`r_json_parse` is radare2 library code; a parse failure is `none`).
Returns the response line emitted to stdout, if any, with the state and
backend-call trace. -/
def process_mcp_message (api : RCoreApi) (st : FullState) (request : Option Json) :
    Option Json × FullState × List Call :=
  match request with
  | none => (none, st, [])  -- "Invalid JSON": no response
  | some req =>
    match r_json_get_str (some req) "method" with
    | none => (none, st, [])  -- "missing method": no response
    | some method =>
      let params := r_json_get (some req) "params"
      match r_json_get (some req) "id" with
      | some idj =>
        let r := handle_mcp_request api st method params (parse_id idj)
        (some r.1, r.2.1, r.2.2)
      | none => (none, st, [])  -- notification: ignored

/-! ## Observation helpers for stating claims -/

/-- Whether a JSON object has a field with the given key. -/
def json_has_key (j : Json) (key : String) : Bool :=
  match j with
  | Json.obj fields => fields.any (fun f => f.1 == key)
  | _ => false

/-- The number of entries in the `tools` array of a `tools/list` result. -/
def listed_tool_count (j : Json) : Nat :=
  match r_json_get (some j) "tools" with
  | some (Json.arr xs) => xs.length
  | _ => 0

/-- The `name` fields of the `tools` array of a `tools/list` result. -/
def listed_tool_names (j : Json) : List String :=
  match r_json_get (some j) "tools" with
  | some (Json.arr xs) => xs.filterMap (fun t => r_json_get_str (some t) "name")
  | _ => []

/-- A do-nothing backend used to instantiate witnesses. -/
def pure_api : RCoreApi :=
  { init_ok := true, cmd_str := fun _ => "ok", file_open_ok := fun _ => true }

/-! ## Claim theorems -/

/-- C1 (code evaluation at the failing input): for the request
`jsonrpc 2.0, id "1", method tools/call, params` with no `name`, the engine
emits a JSON-RPC *success* envelope carrying id "1" whose `result` is the
-32602 error envelope built by `handle_call_tool` with a NULL id — the error
envelope is wrapped inside the success wrapper instead of being emitted
directly with the request id, contradicting the specified error semantics. -/
theorem missing_name_error_wrapped_in_success :
    process_mcp_message pure_api initial_state
      (some (Json.obj [("jsonrpc", Json.str "2.0"), ("id", Json.str "1"),
                       ("method", Json.str "tools/call"), ("params", Json.obj [])])) =
    (some (Json.obj [("jsonrpc", Json.str "2.0"), ("id", Json.str "1"),
       ("result", Json.obj [("jsonrpc", Json.str "2.0"),
         ("error", Json.obj [("code", Json.int (-32602)),
           ("message", Json.str "Missing required parameter: name")])])]),
     initial_state, []) := rfl

/-- C2 counterexample: a decoded request whose `id` field is present but of
boolean type is *not* dropped: the engine processes it and emits a response
line (a success envelope with the id omitted). -/
theorem nonstring_id_still_answered :
    (process_mcp_message pure_api initial_state
      (some (Json.obj [("jsonrpc", Json.str "2.0"), ("id", Json.bool true),
                       ("method", Json.str "ping")]))).1 =
      some (Json.obj [("jsonrpc", Json.str "2.0"), ("result", Json.obj [])]) := rfl

/-- C2 (amended): only a decoded request whose `id` field is absent is a
notification: the engine performs no processing (state unchanged, no backend
call) and emits no response line. -/
theorem absent_id_notification_dropped (api : RCoreApi) (st : FullState) (req : Json)
    (h : r_json_get (some req) "id" = none) :
    process_mcp_message api st (some req) = (none, st, []) := by
  simp only [process_mcp_message]
  rw [h]
  cases hm : r_json_get_str (some req) "method" with
  | none => rfl
  | some m => rfl

theorem absent_id_notification_dropped_witness :
    process_mcp_message pure_api initial_state
        (some (Json.obj [("method", Json.str "ping")])) = (none, initial_state, []) :=
  absent_id_notification_dropped pure_api initial_state
    (Json.obj [("method", Json.str "ping")]) rfl

/-- C3 counterexample: a cursor beyond the catalog length (here "7" with a
5-entry catalog) is *not* clamped to 0: the response is the empty page, not
the page starting at the beginning, which has all 5 tools. -/
theorem cursor_beyond_catalog_empty_page :
    handle_list_tools (some (Json.obj [("cursor", Json.str "7")])) =
        Json.obj [("tools", Json.arr [])] ∧
      listed_tool_count (handle_list_tools (some (Json.obj [("cursor", Json.str "7")]))) = 0 ∧
      listed_tool_count (handle_list_tools none) = 5 :=
  ⟨rfl, rfl, rfl⟩

/-- C3 (amended): an unparsable or negative cursor (`atoi` value ≤ 0) is
clamped to 0, giving the page from the beginning of the catalog; a cursor
greater than the catalog length is not clamped and yields the empty page with
no `nextCursor` — in both cases a normal result, never an error. -/
theorem handle_list_tools_cursor {params : Option Json} {c : String}
    (h : r_json_get_str params "cursor" = some c) :
    handle_list_tools params = list_tools_page (if atoi c < 0 then 0 else atoi c) := by
  unfold handle_list_tools
  rw [h]

/-- A start index beyond the catalog yields the empty page with no cursor. -/
theorem list_tools_page_empty (s : Int) (hs : (tools_catalog.length : Int) < s) :
    list_tools_page s = Json.obj [("tools", Json.arr [])] := by
  have h5 : (tools_catalog.length : Int) = 5 := rfl
  rw [h5] at hs
  simp only [list_tools_page, h5]
  rw [if_pos (show s + 10 > (5 : Int) by omega)]
  have ht : ((5 : Int) - s).toNat = 0 := Int.toNat_eq_zero.mpr (by omega)
  rw [ht]
  simp

theorem cursor_clamp_amended (params : Option Json) (c : String)
    (h : r_json_get_str params "cursor" = some c) :
    (atoi c ≤ 0 → handle_list_tools params = handle_list_tools none) ∧
    ((tools_catalog.length : Int) < atoi c →
      handle_list_tools params = Json.obj [("tools", Json.arr [])]) := by
  constructor
  · intro hle
    rw [handle_list_tools_cursor h]
    by_cases hlt : atoi c < 0
    · rw [if_pos hlt]
      rfl
    · rw [if_neg hlt, le_antisymm hle (not_lt.mp hlt)]
      rfl
  · intro hgt
    rw [handle_list_tools_cursor h]
    have h0 : ¬ atoi c < 0 := by
      have h5 : (tools_catalog.length : Int) = 5 := rfl
      rw [h5] at hgt
      omega
    rw [if_neg h0]
    exact list_tools_page_empty (atoi c) hgt

theorem cursor_clamp_amended_witness :
    handle_list_tools (some (Json.obj [("cursor", Json.str "-2")])) =
      handle_list_tools none :=
  (cursor_clamp_amended (some (Json.obj [("cursor", Json.str "-2")])) "-2" rfl).1
    (by decide)

/-- C4: `tools/list` with no cursor returns all five tool descriptors
(openFile, closeFile, runCommand, analyze, disassemble) in catalog order, and
the result has no `nextCursor` field. -/
theorem list_tools_default_page_complete :
    handle_list_tools none =
        Json.obj [("tools", Json.arr (tools_catalog.map tool_descriptor_json))] ∧
      listed_tool_names (handle_list_tools none) =
        ["openFile", "closeFile", "runCommand", "analyze", "disassemble"] ∧
      listed_tool_count (handle_list_tools none) = 5 ∧
      json_has_key (handle_list_tools none) "nextCursor" = false :=
  ⟨rfl, rfl, rfl, rfl⟩

/-- C7: `ping` answers the empty JSON object wrapped as a success with the
request id, leaves the whole server state (initialized flag, client
capabilities, client info, current-file tracking) unchanged, and makes no
backend call — for every prior state, params and id. -/
theorem ping_pure_empty_object (api : RCoreApi) (st : FullState)
    (params : Option Json) (id : Option String) :
    handle_mcp_request api st "ping" params id =
      (create_success_response (some (Json.obj [])) id, st, []) := rfl

/-- C10: the response of the dispatcher never depends on the `initialized`
flag: for every method, params and id, states differing only in that flag
produce the same response. -/
theorem dispatch_ignores_initialized_flag (api : RCoreApi) (b1 b2 : Bool)
    (cc ci : Option Json) (r2 : R2State) (method : String)
    (params : Option Json) (id : Option String) :
    (handle_mcp_request api ⟨⟨b1, cc, ci⟩, r2⟩ method params id).1 =
      (handle_mcp_request api ⟨⟨b2, cc, ci⟩, r2⟩ method params id).1 := by
  unfold handle_mcp_request
  have hcap : method_capability_error ⟨b1, cc, ci⟩ method =
      method_capability_error ⟨b2, cc, ci⟩ method := rfl
  rw [hcap]
  cases method_capability_error ⟨b2, cc, ci⟩ method with
  | some e => rfl
  | none => split_ifs <;> rfl

/-- C5: framing is chunk-boundary independent — feeding any byte sequence in
any chunking through `read_buffer_append` + repeated `read_buffer_get_message`
yields exactly the messages (newlines excluded) of feeding the whole sequence
at once — and each successful extraction removes exactly the first
newline-free message and its newline, leaving the remaining bytes as the new
buffer contents. -/
theorem framing_chunk_independent :
    (∀ chunks : List (List Char), feed [] chunks = drain chunks.flatten) ∧
    (∀ buf msg rest : List Char, read_buffer_get_message buf = some (msg, rest) →
      buf = msg ++ '\n' :: rest ∧ msg.contains '\n' = false) := by
  constructor
  · intro chunks
    have h := feed_eq_drain_join chunks [] rfl
    simpa using h
  · intro buf msg rest h
    exact get_message_decomp h

theorem framing_chunk_independent_witness :
    (feed [] [['a'], ['\n', 'b']] = drain [['a'], ['\n', 'b']].flatten) ∧
      ('a' :: '\n' :: 'b' :: [] = ['a'] ++ '\n' :: ['b'] ∧
        List.contains ['a'] '\n' = false) :=
  ⟨framing_chunk_independent.1 [['a'], ['\n', 'b']],
   framing_chunk_independent.2 ('a' :: '\n' :: 'b' :: []) ['a'] ['b'] rfl⟩

/-- C6: invoking runCommand, analyze or disassemble through `tools/call` when
no file is open answers a JSON-RPC success whose result is the tool-error
envelope (content text "No file is currently open. Please open a file
first.", isError true), makes no backend call, and leaves the state
unchanged. -/
theorem no_open_file_tool_error (api : RCoreApi) (st : FullState)
    (params : Option Json) (id : Option String) (t : String)
    (hname : r_json_get_str params "name" = some t)
    (ht : t = "runCommand" ∨ t = "analyze" ∨ t = "disassemble")
    (hfile : st.r2.file_opened = false) :
    handle_mcp_request api st "tools/call" params id =
      (create_success_response
        (some (create_tool_error_response
          "No file is currently open. Please open a file first.")) id,
       st, []) := by
  have hstep : handle_mcp_request api st "tools/call" params id =
      (create_success_response (some (handle_call_tool api st.r2 params).1) id,
       { st with r2 := (handle_call_tool api st.r2 params).2.1 },
       (handle_call_tool api st.r2 params).2.2) := rfl
  have hcall : handle_call_tool api st.r2 params =
      (create_tool_error_response "No file is currently open. Please open a file first.",
       st.r2, []) := by
    unfold handle_call_tool
    rw [hname]
    rcases ht with h | h | h <;> subst h <;> simp [hfile]
  rw [hstep, hcall]

theorem no_open_file_tool_error_witness :
    handle_mcp_request pure_api initial_state "tools/call"
        (some (Json.obj [("name", Json.str "runCommand")])) (some "9") =
      (create_success_response
        (some (create_tool_error_response
          "No file is currently open. Please open a file first.")) (some "9"),
       initial_state, []) :=
  no_open_file_tool_error pure_api initial_state
    (some (Json.obj [("name", Json.str "runCommand")])) (some "9") "runCommand"
    rfl (Or.inl rfl) rfl

/-- C8: a `disassemble` call whose `numInstructions` argument is present but
not a JSON integer node silently uses the default of 10 instructions: the
backend is asked for `pd 10 @ <address>` and the raw output is returned as a
tool text result — no invalid-params error. -/
theorem disassemble_noninteger_count_defaults (api : RCoreApi) (st : FullState)
    (params args : Json) (id : Option String) (addr : String) (nj : Json)
    (hname : r_json_get_str (some params) "name" = some "disassemble")
    (hargs : r_json_get (some params) "arguments" = some args)
    (haddr : r_json_get_str (some args) "address" = some addr)
    (hnum : r_json_get (some args) "numInstructions" = some nj)
    (hni : ∀ n : Int, nj ≠ Json.int n)
    (hcore : st.r2.r_core = true) (hfile : st.r2.file_opened = true) :
    handle_mcp_request api st "tools/call" (some params) id =
      (create_success_response
        (some (create_tool_text_response
          (api.cmd_str (("pd 10 @ " ++ addr).take 127)))) id,
       st, [Call.cmd_str (("pd 10 @ " ++ addr).take 127)]) := by
  have hstep : handle_mcp_request api st "tools/call" (some params) id =
      (create_success_response (some (handle_call_tool api st.r2 (some params)).1) id,
       { st with r2 := (handle_call_tool api st.r2 (some params)).2.1 },
       (handle_call_tool api st.r2 (some params)).2.2) := rfl
  have hcall : handle_call_tool api st.r2 (some params) =
      (create_tool_text_response (api.cmd_str (("pd 10 @ " ++ addr).take 127)),
       st.r2, [Call.cmd_str (("pd 10 @ " ++ addr).take 127)]) := by
    unfold handle_call_tool
    rw [hargs, hname, haddr, hnum]
    cases nj with
    | int n => exact absurd rfl (hni n)
    | null => simp [hfile, hcore, r2_cmd]; exact ⟨rfl, rfl⟩
    | bool b => simp [hfile, hcore, r2_cmd]; exact ⟨rfl, rfl⟩
    | double => simp [hfile, hcore, r2_cmd]; exact ⟨rfl, rfl⟩
    | str s => simp [hfile, hcore, r2_cmd]; exact ⟨rfl, rfl⟩
    | arr xs => simp [hfile, hcore, r2_cmd]; exact ⟨rfl, rfl⟩
    | obj fs => simp [hfile, hcore, r2_cmd]; exact ⟨rfl, rfl⟩
  rw [hstep, hcall]

theorem disassemble_noninteger_count_defaults_witness :
    handle_mcp_request pure_api
        ⟨⟨false, none, none⟩, ⟨true, true, "/bin/ls"⟩⟩ "tools/call"
        (some (Json.obj [("name", Json.str "disassemble"),
          ("arguments", Json.obj [("address", Json.str "0x100"),
                                  ("numInstructions", Json.str "5")])])) (some "4") =
      (create_success_response (some (create_tool_text_response
        (pure_api.cmd_str (("pd 10 @ " ++ "0x100").take 127)))) (some "4"),
       ⟨⟨false, none, none⟩, ⟨true, true, "/bin/ls"⟩⟩,
       [Call.cmd_str (("pd 10 @ " ++ "0x100").take 127)]) :=
  disassemble_noninteger_count_defaults pure_api
    ⟨⟨false, none, none⟩, ⟨true, true, "/bin/ls"⟩⟩
    (Json.obj [("name", Json.str "disassemble"),
      ("arguments", Json.obj [("address", Json.str "0x100"),
                              ("numInstructions", Json.str "5")])])
    (Json.obj [("address", Json.str "0x100"), ("numInstructions", Json.str "5")])
    (some "4") "0x100" (Json.str "5") rfl rfl rfl rfl
    (fun n h => Json.noConfusion h) rfl rfl

/-- C9: when `openFile` is invoked while a file is already open,
`r2_open_file` first closes the previous file (`o-*`) and clears the tracked
current-file state, then proceeds exactly like a fresh open of the new file;
and the tool result text reports only whether the fresh open of the new file
succeeded. -/
theorem open_file_closes_previous_first (api : RCoreApi) (st : R2State) (path : String)
    (hcore : st.r_core = true) (hopen : st.file_opened = true) :
    (r2_open_file api st path =
      ((r2_open_file api { st with file_opened := false, current_file := "" } path).1,
       (r2_open_file api { st with file_opened := false, current_file := "" } path).2.1,
       Call.cmd0 "o-*" ::
         (r2_open_file api { st with file_opened := false, current_file := "" } path).2.2)) ∧
    (handle_call_tool api st (some (Json.obj [("name", Json.str "openFile"),
        ("arguments", Json.obj [("filePath", Json.str path)])]))).1 =
      create_tool_text_response
        (if (r2_open_file api { st with file_opened := false, current_file := "" } path).1
         then "File opened successfully." else "Failed to open file.") := by
  have h1 : r2_open_file api st path =
      ((r2_open_file api { st with file_opened := false, current_file := "" } path).1,
       (r2_open_file api { st with file_opened := false, current_file := "" } path).2.1,
       Call.cmd0 "o-*" ::
         (r2_open_file api { st with file_opened := false, current_file := "" } path).2.2) := by
    simp only [r2_open_file, hcore, hopen]
    split_ifs <;> simp_all
  refine ⟨h1, ?_⟩
  have hred : (handle_call_tool api st (some (Json.obj [("name", Json.str "openFile"),
      ("arguments", Json.obj [("filePath", Json.str path)])]))).1 =
      create_tool_text_response
        (if (r2_open_file api st path).1
         then "File opened successfully." else "Failed to open file.") := rfl
  rw [hred, h1]

theorem open_file_closes_previous_first_witness :
    (r2_open_file pure_api ⟨true, true, "old"⟩ "new" =
      ((r2_open_file pure_api ⟨true, false, ""⟩ "new").1,
       (r2_open_file pure_api ⟨true, false, ""⟩ "new").2.1,
       Call.cmd0 "o-*" :: (r2_open_file pure_api ⟨true, false, ""⟩ "new").2.2)) ∧
    (handle_call_tool pure_api ⟨true, true, "old"⟩
        (some (Json.obj [("name", Json.str "openFile"),
          ("arguments", Json.obj [("filePath", Json.str "new")])]))).1 =
      create_tool_text_response
        (if (r2_open_file pure_api ⟨true, false, ""⟩ "new").1
         then "File opened successfully." else "Failed to open file.") :=
  open_file_closes_previous_first pure_api ⟨true, true, "old"⟩ "new" rfl rfl
